import Mathlib

/-! Formal model of the build-time definition compiler behind the x86 backend
of the cranelift meta crate: the settings compiler (feature flags, predicates,
presets), the register layout compiler (banks and register classes), the
per-mode legalization dispatch builder, and the x86 instantiation found in
cranelift-codegen/meta/src/isa/x86/mod.rs.  The cdsl engine sources
(cdsl/settings.rs, cdsl/regs.rs, cdsl/cpu_modes.rs) are not part of the
excerpt; their operations are modelled from the specification, as stated in
the doc comment of each such definition. -/

deriving instance DecidableEq for Except

/-- A boolean feature flag: unique name, documentation string, default value. -/
structure BoolSetting where
  name : String
  doc : String
  default : Bool
deriving DecidableEq

/-- A leaf of a predicate expression: a reference (by declaration index) to an
already declared flag or to an already declared predicate. -/
inductive PredLeaf where
  | flagRef (i : Nat)
  | predRef (i : Nat)
deriving DecidableEq

/-- A named predicate: the conjunction of its leaves. -/
structure Predicate where
  name : String
  leaves : List PredLeaf
deriving DecidableEq

/-- One entry of the implied set of a preset: a flag, a predicate, or an
earlier preset that this preset extends. -/
inductive PresetEntry where
  | flagRef (i : Nat)
  | predRef (i : Nat)
  | presetRef (i : Nat)
deriving DecidableEq

/-- A named preset: the list of entries it implies (flags, predicates and
extended presets). -/
structure Preset where
  name : String
  entries : List PresetEntry
deriving DecidableEq

/-- Error class of the settings compiler. -/
inductive SettingsError where
  | DuplicateName
  | UndeclaredReference
deriving DecidableEq

/-- Mutable staging area of the settings compiler: declarations accumulate in
order, and finish compiles them into the immutable descriptor. -/
structure SettingGroupBuilder where
  name : String
  flags : List BoolSetting
  predicates : List Predicate
  presets : List Preset
deriving DecidableEq

def SettingGroupBuilder.new (name : String) : SettingGroupBuilder :=
  ⟨name, [], [], []⟩

/-- Flags, predicates and presets share one namespace. -/
def SettingGroupBuilder.usedNames (b : SettingGroupBuilder) : List String :=
  b.flags.map BoolSetting.name ++ b.predicates.map Predicate.name ++
    b.presets.map Preset.name

/-- Modelled from the spec: declare_flag registers a new boolean flag and
returns its id; it fails with DuplicateName if the name already exists in the
shared namespace.  cdsl/settings.rs is not part of the excerpt. -/
def SettingGroupBuilder.add_bool (b : SettingGroupBuilder) (name doc : String)
    (default : Bool) : Except SettingsError (SettingGroupBuilder × Nat) :=
  if b.usedNames.contains name then .error .DuplicateName
  else .ok ({ b with flags := b.flags ++ [⟨name, doc, default⟩] }, b.flags.length)

/-- A predicate leaf is valid when it references an already declared flag or
predicate. -/
def SettingGroupBuilder.leafDeclared (b : SettingGroupBuilder) : PredLeaf → Bool
  | .flagRef i => decide (i < b.flags.length)
  | .predRef j => decide (j < b.predicates.length)

/-- Modelled from the spec: declare_predicate compiles a conjunction of leaves;
it fails with DuplicateName on a name collision and with UndeclaredReference
when a leaf does not resolve to an earlier declaration.  cdsl/settings.rs is
not part of the excerpt. -/
def SettingGroupBuilder.add_predicate (b : SettingGroupBuilder) (name : String)
    (leaves : List PredLeaf) : Except SettingsError (SettingGroupBuilder × Nat) :=
  if b.usedNames.contains name then .error .DuplicateName
  else if leaves.all b.leafDeclared then
    .ok ({ b with predicates := b.predicates ++ [⟨name, leaves⟩] }, b.predicates.length)
  else .error .UndeclaredReference

/-- A preset entry is valid when it references an earlier declaration. -/
def SettingGroupBuilder.entryDeclared (b : SettingGroupBuilder) : PresetEntry → Bool
  | .flagRef i => decide (i < b.flags.length)
  | .predRef j => decide (j < b.predicates.length)
  | .presetRef k => decide (k < b.presets.length)

/-- Modelled from the spec: declare_preset records the implied set of a preset,
whose effective set is later computed as the union over the extends chain plus
the own additions; it fails with DuplicateName on a collision and with
UndeclaredReference on an unresolved entry.  cdsl/settings.rs is not part of
the excerpt. -/
def SettingGroupBuilder.add_preset (b : SettingGroupBuilder) (name : String)
    (entries : List PresetEntry) : Except SettingsError (SettingGroupBuilder × Nat) :=
  if b.usedNames.contains name then .error .DuplicateName
  else if entries.all b.entryDeclared then
    .ok ({ b with presets := b.presets ++ [⟨name, entries⟩] }, b.presets.length)
  else .error .UndeclaredReference

/-- Bit mask contributed by one preset entry, given the final flag count and
the already computed masks of the earlier presets. -/
def presetEntryMask (flagCount : Nat) (earlier : List Nat) : PresetEntry → Nat
  | .flagRef i => 2 ^ i
  | .predRef j => 2 ^ (flagCount + j)
  | .presetRef k => (earlier[k]?).getD 0

/-- Effective mask of a preset: the union of the masks of its entries. -/
def maskOfEntries (flagCount : Nat) (earlier : List Nat)
    (entries : List PresetEntry) : Nat :=
  entries.foldl (fun m e => m ||| presetEntryMask flagCount earlier e) 0

/-- Masks of all presets, computed in declaration order so that each preset can
refer to the masks of the presets it extends. -/
def computeMasks (flagCount : Nat) (presets : List Preset) : List Nat :=
  presets.foldl (fun acc p => acc ++ [maskOfEntries flagCount acc p.entries]) []

/-- Bit assignment: the n-th name of the list receives bit k + n. -/
def assignBits : List String → Nat → List (String × Nat)
  | [], _ => []
  | n :: rest, k => (n, k) :: assignBits rest (k + 1)

/-- The finalized settings descriptor: stable contiguous bit layout (flags in
declaration order, then predicates in declaration order) and one compiled
bitmask per preset. -/
structure SettingGroup where
  name : String
  flags : List BoolSetting
  predicates : List Predicate
  layout : List (String × Nat)
  preset_masks : List (String × Nat)
  total_bits : Nat
deriving DecidableEq

def SettingGroup.empty : SettingGroup := ⟨"", [], [], [], [], 0⟩

/-- Modelled from the spec: finish assigns final bit positions to every flag in
declaration order then every predicate in declaration order, and compiles every
preset into a bitmask over this layout.  cdsl/settings.rs is not part of the
excerpt. -/
def SettingGroupBuilder.finish (b : SettingGroupBuilder) : SettingGroup :=
  let names := b.flags.map BoolSetting.name ++ b.predicates.map Predicate.name
  { name := b.name
    flags := b.flags
    predicates := b.predicates
    layout := assignBits names 0
    preset_masks := (b.presets.map Preset.name).zip
      (computeMasks b.flags.length b.presets)
    total_bits := (assignBits names 0).length }

/-- Bit position of a named flag or predicate in the finalized layout. -/
def SettingGroup.bitOf (g : SettingGroup) (name : String) : Option Nat :=
  g.layout.lookup name

/-- Compiled mask of a named preset. -/
def SettingGroup.presetMaskOf (g : SettingGroup) (name : String) : Option Nat :=
  g.preset_masks.lookup name

/-- Bits of the flag defaults, in layout order. -/
def defaultBitsAux : List BoolSetting → Nat → Nat
  | [], _ => 0
  | f :: rest, i => (if f.default then 2 ^ i else 0) ||| defaultBitsAux rest (i + 1)

def SettingGroup.defaultFlagBits (g : SettingGroup) : Nat :=
  defaultBitsAux g.flags 0

/-- Applying a preset: the default flag bits with the preset mask forced on. -/
def SettingGroup.applyPreset (g : SettingGroup) (name : String) : Option Nat :=
  (g.presetMaskOf name).map (fun m => g.defaultFlagBits ||| m)

/-- Evaluate a conjunction of leaves against concrete flag bits, given the
values of the earlier predicates. -/
def evalLeaves (flagBits : Nat) (predVals : List Bool) : List PredLeaf → Bool
  | [] => true
  | .flagRef i :: rest => flagBits.testBit i && evalLeaves flagBits predVals rest
  | .predRef j :: rest => (predVals[j]?).getD false && evalLeaves flagBits predVals rest

/-- Values of all predicates of a finalized group against concrete flag bits,
computed in declaration order so that later predicates see earlier values. -/
def evalPredicates (g : SettingGroup) (flagBits : Nat) : List Bool :=
  g.predicates.foldl (fun acc p => acc ++ [evalLeaves flagBits acc p.leaves]) []

/-- Value of a named predicate against concrete flag bits. -/
def SettingGroup.evalPredByName (g : SettingGroup) (flagBits : Nat)
    (name : String) : Option Bool :=
  ((g.predicates.map Predicate.name).zip (evalPredicates g flagBits)).lookup name

/-- The x86 settings group, mirroring define_settings of isa/x86/mod.rs:
nine flags, five predicates, eight presets. -/
def X86.define_settings (_shared : SettingGroup) :
    Except SettingsError SettingGroup := do
  let settings := SettingGroupBuilder.new "x86"
  let (settings, has_sse3) ← settings.add_bool "has_sse3"
    "SSE3: CPUID.01H:ECX.SSE3[bit 0]" false
  let (settings, has_ssse3) ← settings.add_bool "has_ssse3"
    "SSSE3: CPUID.01H:ECX.SSSE3[bit 9]" false
  let (settings, has_sse41) ← settings.add_bool "has_sse41"
    "SSE4.1: CPUID.01H:ECX.SSE4_1[bit 19]" false
  let (settings, has_sse42) ← settings.add_bool "has_sse42"
    "SSE4.2: CPUID.01H:ECX.SSE4_2[bit 20]" false
  let (settings, has_popcnt) ← settings.add_bool "has_popcnt"
    "POPCNT: CPUID.01H:ECX.POPCNT[bit 23]" false
  let (settings, _) ← settings.add_bool "has_avx"
    "AVX: CPUID.01H:ECX.AVX[bit 28]" false
  let (settings, has_bmi1) ← settings.add_bool "has_bmi1"
    "BMI1: CPUID.(EAX=07H, ECX=0H):EBX.BMI1[bit 3]" false
  let (settings, has_bmi2) ← settings.add_bool "has_bmi2"
    "BMI2: CPUID.(EAX=07H, ECX=0H):EBX.BMI2[bit 8]" false
  let (settings, has_lzcnt) ← settings.add_bool "has_lzcnt"
    "LZCNT: CPUID.EAX=80000001H:ECX.LZCNT[bit 5]" false
  let (settings, _) ← settings.add_predicate "use_sse41" [.flagRef has_sse41]
  let (settings, _) ← settings.add_predicate "use_sse42"
    [.flagRef has_sse41, .flagRef has_sse42]
  let (settings, _) ← settings.add_predicate "use_popcnt"
    [.flagRef has_popcnt, .flagRef has_sse42]
  let (settings, _) ← settings.add_predicate "use_bmi1" [.flagRef has_bmi1]
  let (settings, _) ← settings.add_predicate "use_lznct" [.flagRef has_lzcnt]
  let (settings, _) ← settings.add_preset "baseline" []
  let (settings, nehalem) ← settings.add_preset "nehalem"
    [.flagRef has_sse3, .flagRef has_ssse3, .flagRef has_sse41,
      .flagRef has_sse42, .flagRef has_popcnt]
  let (settings, haswell) ← settings.add_preset "haswell"
    [.presetRef nehalem, .flagRef has_bmi1, .flagRef has_bmi2, .flagRef has_lzcnt]
  let (settings, broadwell) ← settings.add_preset "broadwell" [.presetRef haswell]
  let (settings, skylake) ← settings.add_preset "skylake" [.presetRef broadwell]
  let (settings, cannonlake) ← settings.add_preset "cannonlake" [.presetRef skylake]
  let (settings, _) ← settings.add_preset "icelake" [.presetRef cannonlake]
  let (settings, _) ← settings.add_preset "znver1"
    [.flagRef has_sse3, .flagRef has_ssse3, .flagRef has_sse41,
      .flagRef has_sse42, .flagRef has_popcnt, .flagRef has_bmi1,
      .flagRef has_bmi2, .flagRef has_lzcnt]
  pure settings.finish

/-- The finalized x86 settings descriptor. -/
def X86.x86Settings : SettingGroup :=
  (X86.define_settings SettingGroup.empty).toOption.getD SettingGroup.empty

/-- Error class of the register layout compiler. -/
inductive RegError where
  | DuplicateName
  | RangeOutOfBounds
  | LengthMismatch
  | InvalidUnitCount
  | UndeclaredReference
  | MissingTopLevelClass
deriving DecidableEq

/-- Declaration of one register bank, mirroring RegBankBuilder of the source:
name, register name stem, unit count, optional explicit per-unit name list
(empty when not supplied, the builder default) and the pressure tracking
flag. -/
structure RegBankBuilder where
  name : String
  pfx : String
  units : Nat
  names : List String
  track_pressure : Bool
deriving DecidableEq

def RegBankBuilder.new (name pfx : String) : RegBankBuilder :=
  ⟨name, pfx, 0, [], false⟩

/-- A declared register bank; first_unit is its offset in the disjoint global
unit space. -/
structure RegBank where
  name : String
  pfx : String
  first_unit : Nat
  units : Nat
  names : List String
  track_pressure : Bool
deriving DecidableEq

/-- A declared register class: owning bank, optional parent class, and the
unit range [start, start + count) it covers within the bank. -/
structure RegClass where
  name : String
  bank : Nat
  parent : Option Nat
  start : Nat
  count : Nat
deriving DecidableEq

/-- Declaration of one register class, mirroring RegClassBuilder of the
source. -/
inductive RegClassBuilder where
  | toplevel (name : String) (bank : Nat)
  | subclass (name : String) (parent : Nat) (start : Nat) (count : Nat)
deriving DecidableEq

def RegClassBuilder.new_toplevel (name : String) (bank : Nat) : RegClassBuilder :=
  .toplevel name bank

def RegClassBuilder.subclass_of (name : String) (parent start count : Nat) :
    RegClassBuilder :=
  .subclass name parent start count

/-- Staging area of the register layout compiler. -/
structure IsaRegsBuilder where
  banks : List RegBank
  classes : List RegClass
deriving DecidableEq

def IsaRegsBuilder.new : IsaRegsBuilder := ⟨[], []⟩

def sumUnits (banks : List RegBank) : Nat :=
  banks.foldl (fun a k => a + k.units) 0

/-- Modelled from the spec: declare_bank requires unit_count > 0, and when an
explicit name list is supplied its length must equal the unit count, else the
declaration fails with LengthMismatch.  cdsl/regs.rs is not part of the
excerpt. -/
def IsaRegsBuilder.add_bank (b : IsaRegsBuilder) (bb : RegBankBuilder) :
    Except RegError (IsaRegsBuilder × Nat) :=
  if bb.units = 0 then .error .InvalidUnitCount
  else if bb.names = [] ∨ bb.names.length = bb.units then
    .ok ({ b with banks := b.banks ++
      [⟨bb.name, bb.pfx, sumUnits b.banks, bb.units, bb.names, bb.track_pressure⟩] },
      b.banks.length)
  else .error .LengthMismatch

def IsaRegsBuilder.classNames (b : IsaRegsBuilder) : List String :=
  b.classes.map RegClass.name

/-- Modelled from the spec: declare_toplevel_class creates a class spanning the
full range of its bank and fails with DuplicateName on a collision;
declare_subclass covers [start, start + count), must satisfy
parent.start ≤ start and start + count ≤ parent.start + parent.count, failing
with RangeOutOfBounds otherwise, and fails with DuplicateName on a collision.
cdsl/regs.rs is not part of the excerpt. -/
def IsaRegsBuilder.add_class (b : IsaRegsBuilder) (cb : RegClassBuilder) :
    Except RegError (IsaRegsBuilder × Nat) :=
  match cb with
  | .toplevel name bank =>
    match b.banks[bank]? with
    | none => .error .UndeclaredReference
    | some bk =>
      if b.classNames.contains name then .error .DuplicateName
      else .ok ({ b with classes := b.classes ++ [⟨name, bank, none, 0, bk.units⟩] },
        b.classes.length)
  | .subclass name parent start count =>
    match b.classes[parent]? with
    | none => .error .UndeclaredReference
    | some pc =>
      if pc.start ≤ start ∧ start + count ≤ pc.start + pc.count then
        if b.classNames.contains name then .error .DuplicateName
        else .ok ({ b with classes :=
          b.classes ++ [⟨name, pc.bank, some parent, start, count⟩] },
          b.classes.length)
      else .error .RangeOutOfBounds

/-- The finalized register layout. -/
structure IsaRegs where
  banks : List RegBank
  classes : List RegClass
deriving DecidableEq

/-- Modelled from the spec: finish validates that every bank has exactly one
top-level class and returns the immutable forest.  cdsl/regs.rs is not part of
the excerpt. -/
def IsaRegsBuilder.finish (b : IsaRegsBuilder) : Except RegError IsaRegs :=
  if (List.range b.banks.length).all (fun i =>
      (b.classes.filter (fun c => (c.bank == i) && c.parent.isNone)).length = 1) then
    .ok ⟨b.banks, b.classes⟩
  else .error .MissingTopLevelClass

/-- The x86 register declarations, mirroring define_registers of
isa/x86/mod.rs.  Note that the IntRegs bank supplies an 8-element name list
for 16 units. -/
def X86.define_registers : Except RegError IsaRegs := do
  let regs := IsaRegsBuilder.new
  let builder := { RegBankBuilder.new "IntRegs" "r" with
    units := 16,
    names := ["rax", "rcx", "rdx", "rbx", "rsp", "rbp", "rsi", "rdi"],
    track_pressure := true }
  let (regs, int_regs) ← regs.add_bank builder
  let builder := { RegBankBuilder.new "FloatRegs" "xmm" with
    units := 16, track_pressure := true }
  let (regs, float_regs) ← regs.add_bank builder
  let builder := { RegBankBuilder.new "FlagRegs" "" with
    units := 1, names := ["rflags"], track_pressure := false }
  let (regs, flag_reg) ← regs.add_bank builder
  let (regs, gpr) ← regs.add_class (RegClassBuilder.new_toplevel "GPR" int_regs)
  let (regs, fpr) ← regs.add_class (RegClassBuilder.new_toplevel "FPR" float_regs)
  let (regs, _) ← regs.add_class (RegClassBuilder.new_toplevel "FLAG" flag_reg)
  let (regs, gpr8) ← regs.add_class (RegClassBuilder.subclass_of "GPR8" gpr 0 8)
  let (regs, _) ← regs.add_class (RegClassBuilder.subclass_of "ABCD" gpr8 0 4)
  let (regs, _) ← regs.add_class (RegClassBuilder.subclass_of "FPR8" fpr 0 8)
  regs.finish

/-- The register-class scenario of the spec: bank IntRegs with 16 units,
top-level class GPR, subclass GPR8 of GPR over [0, 8), subclass ABCD of GPR8
over [0, 4).  Returns the builder together with the id of GPR8. -/
def scenarioRegs : Except RegError (IsaRegsBuilder × Nat) := do
  let regs := IsaRegsBuilder.new
  let (regs, int_regs) ← regs.add_bank { RegBankBuilder.new "IntRegs" "r" with units := 16 }
  let (regs, gpr) ← regs.add_class (RegClassBuilder.new_toplevel "GPR" int_regs)
  let (regs, gpr8) ← regs.add_class (RegClassBuilder.subclass_of "GPR8" gpr 0 8)
  let (regs, _) ← regs.add_class (RegClassBuilder.subclass_of "ABCD" gpr8 0 4)
  pure (regs, gpr8)

def scenarioBuilder : IsaRegsBuilder :=
  (scenarioRegs.toOption.getD (IsaRegsBuilder.new, 0)).1

/-- The controlling value types used by the x86 legalization tables. -/
inductive ValueType where
  | B1
  | I8
  | I16
  | I32
  | I64
  | F32
  | F64
deriving DecidableEq

/-- Error class of the legalization dispatch builder. -/
inductive CpuModeError where
  | AlreadySet
  | DuplicateKey
deriving DecidableEq

/-- One CPU mode: the always-applies (monomorphic) rule, the default rule, and
the type-specific overrides.  Transform groups are opaque named references.
Modelled from the spec; cdsl/cpu_modes.rs is not part of the excerpt. -/
structure CpuMode where
  name : String
  monomorphic_legalize : Option String
  default_legalize : Option String
  type_legalize : List (ValueType × String)
deriving DecidableEq

def CpuMode.new (name : String) : CpuMode := ⟨name, none, none, []⟩

/-- First entry of the association list whose key is the given type. -/
def lookupTy : List (ValueType × String) → ValueType → Option String
  | [], _ => none
  | (t, g) :: rest, ty => if t = ty then some g else lookupTy rest ty

/-- Modelled from the spec: set_always_applies fails with AlreadySet when
called twice for the same mode. -/
def CpuMode.legalize_monomorphic (m : CpuMode) (group : String) :
    Except CpuModeError CpuMode :=
  match m.monomorphic_legalize with
  | some _ => .error .AlreadySet
  | none => .ok { m with monomorphic_legalize := some group }

/-- Modelled from the spec: set_default fails with AlreadySet when called
twice for the same mode. -/
def CpuMode.legalize_default (m : CpuMode) (group : String) :
    Except CpuModeError CpuMode :=
  match m.default_legalize with
  | some _ => .error .AlreadySet
  | none => .ok { m with default_legalize := some group }

/-- Modelled from the spec: set_for_type fails with DuplicateKey when the type
already has an entry for this mode. -/
def CpuMode.legalize_type (m : CpuMode) (ty : ValueType) (group : String) :
    Except CpuModeError CpuMode :=
  match lookupTy m.type_legalize ty with
  | some _ => .error .DuplicateKey
  | none => .ok { m with type_legalize := (ty, group) :: m.type_legalize }

/-- Modelled from the spec: the resolution contract for the type axis — the
type-specific rule if the type has one, otherwise the default rule (none when
no default was set). -/
def CpuMode.resolve_type (m : CpuMode) (ty : ValueType) : Option String :=
  match lookupTy m.type_legalize ty with
  | some g => some g
  | none => m.default_legalize

/-- Two modes carry the same final table: same always-applies rule, same
default rule, and the same type-specific mapping. -/
def modeEquiv (m1 m2 : CpuMode) : Prop :=
  m1.monomorphic_legalize = m2.monomorphic_legalize ∧
  m1.default_legalize = m2.default_legalize ∧
  ∀ ty, lookupTy m1.type_legalize ty = lookupTy m2.type_legalize ty

/-- Lift of modeEquiv to fallible results: equal errors, or tables that
agree. -/
def exceptModeEquiv : Except CpuModeError CpuMode → Except CpuModeError CpuMode → Prop
  | .ok m1, .ok m2 => modeEquiv m1 m2
  | .error e1, .error e2 => e1 = e2
  | _, _ => False

/-- The x86_32 CPU mode, mirroring the legalize calls of define in
isa/x86/mod.rs. -/
def X86.x86_32_build : Except CpuModeError CpuMode := do
  let m := CpuMode.new "I32"
  let m ← m.legalize_monomorphic "expand_flags"
  let m ← m.legalize_default "narrow"
  let m ← m.legalize_type .B1 "expand_flags"
  let m ← m.legalize_type .I8 "widen"
  let m ← m.legalize_type .I16 "widen"
  let m ← m.legalize_type .I32 "x86_expand"
  let m ← m.legalize_type .F32 "x86_expand"
  let m ← m.legalize_type .F64 "x86_expand"
  pure m

/-- The x86_64 CPU mode, mirroring the legalize calls of define in
isa/x86/mod.rs. -/
def X86.x86_64_build : Except CpuModeError CpuMode := do
  let m := CpuMode.new "I64"
  let m ← m.legalize_monomorphic "expand_flags"
  let m ← m.legalize_default "narrow"
  let m ← m.legalize_type .B1 "expand_flags"
  let m ← m.legalize_type .I8 "widen"
  let m ← m.legalize_type .I16 "widen"
  let m ← m.legalize_type .I32 "x86_expand"
  let m ← m.legalize_type .I64 "x86_expand"
  let m ← m.legalize_type .F32 "x86_expand"
  let m ← m.legalize_type .F64 "x86_expand"
  pure m

def X86.x86_32_mode : CpuMode := X86.x86_32_build.toOption.getD (CpuMode.new "")

def X86.x86_64_mode : CpuMode := X86.x86_64_build.toOption.getD (CpuMode.new "")

/-- The shared definitions consumed by the x86 target definition: the shared
settings group, the instruction format registry (opaque token) and the registry
of named transform groups.  Modelled from the spec; shared/mod.rs is not part
of the excerpt. -/
structure SharedDefinitions where
  settings : SettingGroup
  format_registry : Nat
  transform_groups : List String
deriving DecidableEq

/-- Modelled from the spec: transform groups are opaque named references passed
through unmodified, so a lookup by name yields the reference bearing that
name. -/
def TransformGroups.by_name (_tgs : List String) (name : String) : String := name

/-- Modelled from the spec: the x86 instruction set is an opaque token,
packaged unmodified into the target descriptor; isa/x86/instructions.rs is out
of scope. -/
def X86.instructions_define (format_registry : Nat) : Nat := format_registry

/-- Modelled from the spec: legalize::define registers the x86-specific
transform group with the shared definitions; the rewrite bodies are out of
scope.  isa/x86/legalize.rs is not part of the excerpt. -/
def X86.legalize_define (shared_defs : SharedDefinitions) (_inst_group : Nat) :
    SharedDefinitions :=
  { shared_defs with transform_groups := shared_defs.transform_groups ++ ["x86_expand"] }

/-- The immutable target descriptor packaged by the ISA assembly driver. -/
structure TargetIsa where
  name : String
  instructions : Nat
  settings : SettingGroup
  regs : IsaRegs
  cpu_modes : List CpuMode
deriving DecidableEq

def TargetIsa.new (name : String) (instructions : Nat) (settings : SettingGroup)
    (regs : IsaRegs) (cpu_modes : List CpuMode) : TargetIsa :=
  ⟨name, instructions, settings, regs, cpu_modes⟩

/-- Errors of the whole x86 definition run, by component. -/
inductive DefineError where
  | settingsErr (e : SettingsError)
  | regsErr (e : RegError)
  | modeErr (e : CpuModeError)
deriving DecidableEq

/-- The x86 target definition, mirroring define of isa/x86/mod.rs: settings,
registers, instructions, the two CPU modes (I64 first), packaged as the x86
target descriptor. -/
def X86.define (shared_defs : SharedDefinitions) : Except DefineError TargetIsa := do
  let settings ← (X86.define_settings shared_defs.settings).mapError DefineError.settingsErr
  let regs ← X86.define_registers.mapError DefineError.regsErr
  let inst_group := X86.instructions_define shared_defs.format_registry
  let shared_defs := X86.legalize_define shared_defs inst_group
  let x86_64 := CpuMode.new "I64"
  let x86_32 := CpuMode.new "I32"
  let expand_flags := TransformGroups.by_name shared_defs.transform_groups "expand_flags"
  let narrow := TransformGroups.by_name shared_defs.transform_groups "narrow"
  let widen := TransformGroups.by_name shared_defs.transform_groups "widen"
  let x86_expand := TransformGroups.by_name shared_defs.transform_groups "x86_expand"
  let x86_32 ← (x86_32.legalize_monomorphic expand_flags).mapError DefineError.modeErr
  let x86_32 ← (x86_32.legalize_default narrow).mapError DefineError.modeErr
  let x86_32 ← (x86_32.legalize_type .B1 expand_flags).mapError DefineError.modeErr
  let x86_32 ← (x86_32.legalize_type .I8 widen).mapError DefineError.modeErr
  let x86_32 ← (x86_32.legalize_type .I16 widen).mapError DefineError.modeErr
  let x86_32 ← (x86_32.legalize_type .I32 x86_expand).mapError DefineError.modeErr
  let x86_32 ← (x86_32.legalize_type .F32 x86_expand).mapError DefineError.modeErr
  let x86_32 ← (x86_32.legalize_type .F64 x86_expand).mapError DefineError.modeErr
  let x86_64 ← (x86_64.legalize_monomorphic expand_flags).mapError DefineError.modeErr
  let x86_64 ← (x86_64.legalize_default narrow).mapError DefineError.modeErr
  let x86_64 ← (x86_64.legalize_type .B1 expand_flags).mapError DefineError.modeErr
  let x86_64 ← (x86_64.legalize_type .I8 widen).mapError DefineError.modeErr
  let x86_64 ← (x86_64.legalize_type .I16 widen).mapError DefineError.modeErr
  let x86_64 ← (x86_64.legalize_type .I32 x86_expand).mapError DefineError.modeErr
  let x86_64 ← (x86_64.legalize_type .I64 x86_expand).mapError DefineError.modeErr
  let x86_64 ← (x86_64.legalize_type .F32 x86_expand).mapError DefineError.modeErr
  let x86_64 ← (x86_64.legalize_type .F64 x86_expand).mapError DefineError.modeErr
  let cpu_modes := [x86_64, x86_32]
  pure (TargetIsa.new "x86" inst_group settings regs cpu_modes)

/-- A concrete shared-definitions input for evaluating the x86 definition. -/
def sharedExample : SharedDefinitions :=
  ⟨SettingGroup.empty, 0, ["expand_flags", "narrow", "widen"]⟩

/-- Folding a union of masks from an arbitrary accumulator factors the
accumulator out. -/
theorem foldl_lor_init {α : Type} (f : α → Nat) (l : List α) (a : Nat) :
    l.foldl (fun m e => m ||| f e) a = a ||| l.foldl (fun m e => m ||| f e) 0 := by
  induction l generalizing a with
  | nil => simp
  | cons e l ih =>
    simp only [List.foldl_cons]
    rw [ih (a ||| f e), ih (0 ||| f e), Nat.zero_or, Nat.lor_assoc]

/-- The mask of a concatenation of entry lists is the union of the masks. -/
theorem maskOfEntries_append (fc : Nat) (earlier : List Nat)
    (es1 es2 : List PresetEntry) :
    maskOfEntries fc earlier (es1 ++ es2) =
      maskOfEntries fc earlier es1 ||| maskOfEntries fc earlier es2 := by
  unfold maskOfEntries
  rw [List.foldl_append]
  exact foldl_lor_init _ es2 _

/-- Bit assignment is positional: the entry at index i carries bit k + i. -/
theorem assignBits_getElem (ns : List String) (k i : Nat) :
    (assignBits ns k)[i]? = ns[i]?.map (fun n => (n, k + i)) := by
  induction ns generalizing k i with
  | nil => simp [assignBits]
  | cons n rest ih =>
    cases i with
    | zero => simp [assignBits]
    | succ j =>
      simp only [assignBits, List.getElem?_cons_succ]
      rw [ih (k + 1) j]
      have h : k + 1 + j = k + (j + 1) := by omega
      rw [h]

theorem assignBits_length (ns : List String) (k : Nat) :
    (assignBits ns k).length = ns.length := by
  induction ns generalizing k with
  | nil => rfl
  | cons n rest ih => simp [assignBits, ih]

/-- Claim C1: a register bank declaration that supplies an explicit per-unit
name list succeeds only if the length of the list equals the unit count of the
bank, and otherwise fails with LengthMismatch; in particular the IntRegs
declaration with units 16 and an 8-element name list is rejected with
LengthMismatch. -/
theorem claim_C1 :
    (∀ (b : IsaRegsBuilder) (bb : RegBankBuilder) (r : IsaRegsBuilder × Nat),
      b.add_bank bb = Except.ok r → bb.names ≠ [] → bb.names.length = bb.units) ∧
    (∀ (b : IsaRegsBuilder) (bb : RegBankBuilder),
      0 < bb.units → bb.names ≠ [] → bb.names.length ≠ bb.units →
      b.add_bank bb = Except.error RegError.LengthMismatch) ∧
    IsaRegsBuilder.new.add_bank { RegBankBuilder.new "IntRegs" "r" with
      units := 16,
      names := ["rax", "rcx", "rdx", "rbx", "rsp", "rbp", "rsi", "rdi"],
      track_pressure := true } = Except.error RegError.LengthMismatch := by
  refine ⟨?_, ?_, by decide⟩
  · intro b bb r hok hne
    unfold IsaRegsBuilder.add_bank at hok
    by_cases h0 : bb.units = 0
    · rw [if_pos h0] at hok
      exact Except.noConfusion hok
    · rw [if_neg h0] at hok
      by_cases hc : bb.names = [] ∨ bb.names.length = bb.units
      · exact hc.elim (fun h => absurd h hne) id
      · rw [if_neg hc] at hok
        exact Except.noConfusion hok
  · intro b bb h0 hne hlen
    unfold IsaRegsBuilder.add_bank
    rw [if_neg (by omega : ¬ bb.units = 0)]
    rw [if_neg (fun hc => hc.elim hne hlen)]

theorem claim_C1_witness :
    (["u0", "u1"].length = 2) ∧
    IsaRegsBuilder.new.add_bank ⟨"B", "u", 4, ["u0", "u1"], false⟩ =
      Except.error RegError.LengthMismatch :=
  ⟨claim_C1.1 IsaRegsBuilder.new ⟨"B", "u", 2, ["u0", "u1"], false⟩ _ rfl (by decide),
   claim_C1.2.1 IsaRegsBuilder.new ⟨"B", "u", 4, ["u0", "u1"], false⟩
     (by decide) (by decide) (by decide)⟩

/-- Claim C2: for every CPU mode, a type with a type-specific entry resolves to
that entry and never to the default, and a type without a specific entry
resolves to the default (none when no default is set); for the x86_32 mode,
I64 resolves to narrow and I32 to x86_expand. -/
theorem claim_C2 :
    (∀ (m : CpuMode) (ty : ValueType) (g : String),
      lookupTy m.type_legalize ty = some g → m.resolve_type ty = some g) ∧
    (∀ (m : CpuMode) (ty : ValueType),
      lookupTy m.type_legalize ty = none → m.resolve_type ty = m.default_legalize) ∧
    X86.x86_32_build = Except.ok X86.x86_32_mode ∧
    X86.x86_32_mode.default_legalize = some "narrow" ∧
    lookupTy X86.x86_32_mode.type_legalize .I64 = none ∧
    lookupTy X86.x86_32_mode.type_legalize .I32 = some "x86_expand" ∧
    X86.x86_32_mode.resolve_type .I64 = some "narrow" ∧
    X86.x86_32_mode.resolve_type .I32 = some "x86_expand" := by
  refine ⟨?_, ?_, ?_⟩
  · intro m ty g h
    unfold CpuMode.resolve_type
    rw [h]
  · intro m ty h
    unfold CpuMode.resolve_type
    rw [h]
  · decide

theorem claim_C2_witness :
    X86.x86_32_mode.resolve_type ValueType.I32 = some "x86_expand" ∧
    X86.x86_32_mode.resolve_type ValueType.I64 = X86.x86_32_mode.default_legalize :=
  ⟨claim_C2.1 X86.x86_32_mode ValueType.I32 "x86_expand" (by decide),
   claim_C2.2.1 X86.x86_32_mode ValueType.I64 (by decide)⟩

/-- Claim C3: the effective mask of a preset is the union of the masks of the
entries of its extends chain plus its own additions, and the union is
idempotent; in the x86 group the masks of broadwell, skylake, cannonlake and
icelake all equal the mask of haswell, and the mask of znver1 equals the mask
of icelake. -/
theorem claim_C3 :
    (∀ (fc : Nat) (earlier : List Nat) (es1 es2 : List PresetEntry),
      maskOfEntries fc earlier (es1 ++ es2) =
        maskOfEntries fc earlier es1 ||| maskOfEntries fc earlier es2) ∧
    (∀ (fc : Nat) (earlier : List Nat) (es : List PresetEntry),
      maskOfEntries fc earlier (es ++ es) = maskOfEntries fc earlier es) ∧
    X86.x86Settings.presetMaskOf "broadwell" = X86.x86Settings.presetMaskOf "haswell" ∧
    X86.x86Settings.presetMaskOf "skylake" = X86.x86Settings.presetMaskOf "haswell" ∧
    X86.x86Settings.presetMaskOf "cannonlake" = X86.x86Settings.presetMaskOf "haswell" ∧
    X86.x86Settings.presetMaskOf "icelake" = X86.x86Settings.presetMaskOf "haswell" ∧
    X86.x86Settings.presetMaskOf "znver1" = X86.x86Settings.presetMaskOf "icelake" ∧
    X86.x86Settings.presetMaskOf "haswell" = some 479 := by
  refine ⟨maskOfEntries_append, ?_, ?_⟩
  · intro fc earlier es
    rw [maskOfEntries_append, Nat.or_self]
  · decide

theorem claim_C3_witness :
    maskOfEntries 9 [] ([PresetEntry.flagRef 0] ++ [PresetEntry.flagRef 1]) =
      maskOfEntries 9 [] [PresetEntry.flagRef 0] |||
        maskOfEntries 9 [] [PresetEntry.flagRef 1] :=
  claim_C3.1 9 [] [PresetEntry.flagRef 0] [PresetEntry.flagRef 1]

/-- Claim C4 (amended): bit positions assigned by finish are stable and
contiguous — the i-th declared flag gets bit i, the j-th declared predicate
gets bit flag_count + j, and the total bit count is flags plus predicates; for
the x86 group this means 9 flag bits 0 to 8 (has_sse3 at bit 0 through
has_lzcnt at bit 8) followed by 5 predicate bits 9 to 13 (use_sse41 at bit 9
through use_lznct at bit 13), 14 bits total. -/
theorem claim_C4 :
    (∀ (b : SettingGroupBuilder) (i : Nat), i < b.flags.length →
      b.finish.layout[i]? = (b.flags[i]?).map (fun f => (f.name, i))) ∧
    (∀ (b : SettingGroupBuilder) (j : Nat), j < b.predicates.length →
      b.finish.layout[b.flags.length + j]? =
        (b.predicates[j]?).map (fun p => (p.name, b.flags.length + j))) ∧
    (∀ b : SettingGroupBuilder,
      b.finish.total_bits = b.flags.length + b.predicates.length) ∧
    X86.x86Settings.flags.length = 9 ∧
    X86.x86Settings.predicates.length = 5 ∧
    X86.x86Settings.bitOf "has_sse3" = some 0 ∧
    X86.x86Settings.bitOf "has_lzcnt" = some 8 ∧
    X86.x86Settings.bitOf "use_sse41" = some 9 ∧
    X86.x86Settings.bitOf "use_lznct" = some 13 ∧
    X86.x86Settings.total_bits = 14 := by
  refine ⟨?_, ?_, ?_, ?_⟩
  · intro b i h
    simp only [SettingGroupBuilder.finish]
    rw [assignBits_getElem, List.getElem?_append]
    rw [if_pos (by simpa using h)]
    rw [List.getElem?_map]
    cases hf : b.flags[i]? <;> simp
  · intro b j h
    simp only [SettingGroupBuilder.finish]
    rw [assignBits_getElem, List.getElem?_append_right (by simp)]
    simp only [List.length_map, Nat.add_sub_cancel_left]
    rw [List.getElem?_map]
    cases hp : b.predicates[j]? <;> simp
  · intro b
    simp [SettingGroupBuilder.finish, assignBits_length]
  · decide

theorem claim_C4_counterexample :
    ¬ (X86.x86Settings.flags.length = 10 ∧
      X86.x86Settings.bitOf "has_lzcnt" = some 9 ∧
      X86.x86Settings.bitOf "use_sse41" = some 10 ∧
      X86.x86Settings.total_bits = 15) := by
  decide

theorem claim_C4_witness :
    (SettingGroupBuilder.mk "g" [⟨"f0", "d", false⟩] [⟨"p0", []⟩] []).finish.layout[0]? =
      some ("f0", 0) ∧
    (SettingGroupBuilder.mk "g" [⟨"f0", "d", false⟩] [⟨"p0", []⟩] []).finish.layout[1]? =
      some ("p0", 1) :=
  ⟨claim_C4.1 (SettingGroupBuilder.mk "g" [⟨"f0", "d", false⟩] [⟨"p0", []⟩] []) 0
    (by decide),
   claim_C4.2.1 (SettingGroupBuilder.mk "g" [⟨"f0", "d", false⟩] [⟨"p0", []⟩] []) 0
    (by decide)⟩

/-- Claim C5: a subclass range must be contained in the parent range, a
violation failing with RangeOutOfBounds at declaration time; in the scenario
with bank IntRegs of 16 units, top-level class GPR, GPR8 over [0, 8) and ABCD
over [0, 4), ABCD resolves to the absolute range [0, 4) of IntRegs while a
subclass of GPR8 over [4, 12) is rejected with RangeOutOfBounds. -/
theorem claim_C5 :
    (∀ (b : IsaRegsBuilder) (name : String) (parent start count : Nat) (pc : RegClass),
      b.classes[parent]? = some pc →
      ¬ (pc.start ≤ start ∧ start + count ≤ pc.start + pc.count) →
      b.add_class (RegClassBuilder.subclass_of name parent start count) =
        Except.error RegError.RangeOutOfBounds) ∧
    (∀ (b : IsaRegsBuilder) (name : String) (parent start count : Nat)
      (pc : RegClass) (r : IsaRegsBuilder × Nat),
      b.classes[parent]? = some pc →
      b.add_class (RegClassBuilder.subclass_of name parent start count) =
        Except.ok r →
      pc.start ≤ start ∧ start + count ≤ pc.start + pc.count) ∧
    scenarioRegs = Except.ok (scenarioBuilder, 1) ∧
    scenarioBuilder.classes[2]? = some ⟨"ABCD", 0, some 1, 0, 4⟩ ∧
    (scenarioBuilder.banks[0]?).map RegBank.name = some "IntRegs" ∧
    scenarioBuilder.add_class (RegClassBuilder.subclass_of "BAD" 1 4 8) =
      Except.error RegError.RangeOutOfBounds := by
  refine ⟨?_, ?_, ?_⟩
  · intro b name parent start count pc h1 h2
    simp only [IsaRegsBuilder.add_class, RegClassBuilder.subclass_of, h1]
    rw [if_neg h2]
  · intro b name parent start count pc r h1 hok
    by_cases hc : pc.start ≤ start ∧ start + count ≤ pc.start + pc.count
    · exact hc
    · exfalso
      simp only [IsaRegsBuilder.add_class, RegClassBuilder.subclass_of, h1] at hok
      rw [if_neg hc] at hok
      exact Except.noConfusion hok
  · decide

theorem claim_C5_witness :
    scenarioBuilder.add_class (RegClassBuilder.subclass_of "BAD2" 1 4 8) =
      Except.error RegError.RangeOutOfBounds ∧
    (0 ≤ 0 ∧ 0 + 4 ≤ 0 + 8) :=
  ⟨claim_C5.1 scenarioBuilder "BAD2" 1 4 8 ⟨"GPR8", 0, some 0, 0, 8⟩
    (by decide) (by decide),
   claim_C5.2.1 scenarioBuilder "ABCD2" 1 0 4 ⟨"GPR8", 0, some 0, 0, 8⟩ _
    (by decide) rfl⟩

/-- Claim C6: with has_sse41 and has_sse42 defaulting to false, use_sse42
being their conjunction, and the nehalem preset implying both, applying the
nehalem mask and then evaluating use_sse42 yields true. -/
theorem claim_C6 :
    X86.x86Settings.applyPreset "nehalem" = some 31 ∧
    Option.bind (X86.x86Settings.applyPreset "nehalem")
      (fun bits => X86.x86Settings.evalPredByName bits "use_sse42") = some true := by
  decide

/-- Claim C7: each legalization slot is write-once — a second always-applies
rule or a second default rule for the same mode fails with AlreadySet, a
second rule for the same value type fails with DuplicateKey — and the order of
set calls on distinct slots does not affect the final table: always-applies
and default calls commute, type calls at distinct types commute, and a type
call commutes with a default call and with an always-applies call whenever the
table accepts the insertions. -/
theorem claim_C7 :
    (∀ (m m2 : CpuMode) (g1 g2 : String),
      m.legalize_monomorphic g1 = Except.ok m2 →
      m2.legalize_monomorphic g2 = Except.error CpuModeError.AlreadySet) ∧
    (∀ (m m2 : CpuMode) (g1 g2 : String),
      m.legalize_default g1 = Except.ok m2 →
      m2.legalize_default g2 = Except.error CpuModeError.AlreadySet) ∧
    (∀ (m m2 : CpuMode) (ty : ValueType) (g1 g2 : String),
      m.legalize_type ty g1 = Except.ok m2 →
      m2.legalize_type ty g2 = Except.error CpuModeError.DuplicateKey) ∧
    (∀ (m : CpuMode) (g d : String),
      Except.bind (m.legalize_monomorphic g) (fun mm => mm.legalize_default d) =
        Except.bind (m.legalize_default d) (fun mm => mm.legalize_monomorphic g)) ∧
    (∀ (m : CpuMode) (t1 t2 : ValueType) (g1 g2 : String), t1 ≠ t2 →
      exceptModeEquiv
        (Except.bind (m.legalize_type t1 g1) (fun mm => mm.legalize_type t2 g2))
        (Except.bind (m.legalize_type t2 g2) (fun mm => mm.legalize_type t1 g1))) ∧
    (∀ (m : CpuMode) (t : ValueType) (g d : String),
      m.default_legalize = none → lookupTy m.type_legalize t = none →
      Except.bind (m.legalize_default d) (fun mm => mm.legalize_type t g) =
        Except.bind (m.legalize_type t g) (fun mm => mm.legalize_default d)) ∧
    (∀ (m : CpuMode) (t : ValueType) (g a : String),
      m.monomorphic_legalize = none → lookupTy m.type_legalize t = none →
      Except.bind (m.legalize_monomorphic a) (fun mm => mm.legalize_type t g) =
        Except.bind (m.legalize_type t g) (fun mm => mm.legalize_monomorphic a)) := by
  refine ⟨?_, ?_, ?_, ?_, ?_, ?_, ?_⟩
  · intro m m2 g1 g2 hok
    cases hm : m.monomorphic_legalize with
    | some x =>
      simp only [CpuMode.legalize_monomorphic, hm] at hok
      exact Except.noConfusion hok
    | none =>
      simp only [CpuMode.legalize_monomorphic, hm] at hok
      obtain rfl := Except.ok.inj hok
      rfl
  · intro m m2 g1 g2 hok
    cases hm : m.default_legalize with
    | some x =>
      simp only [CpuMode.legalize_default, hm] at hok
      exact Except.noConfusion hok
    | none =>
      simp only [CpuMode.legalize_default, hm] at hok
      obtain rfl := Except.ok.inj hok
      rfl
  · intro m m2 ty g1 g2 hok
    cases hl : lookupTy m.type_legalize ty with
    | some x =>
      simp only [CpuMode.legalize_type, hl] at hok
      exact Except.noConfusion hok
    | none =>
      simp only [CpuMode.legalize_type, hl] at hok
      obtain rfl := Except.ok.inj hok
      simp [CpuMode.legalize_type, lookupTy]
  · intro m g d
    obtain ⟨n, mono, deflt, tl⟩ := m
    cases mono <;> cases deflt <;> rfl
  · intro m t1 t2 g1 g2 hne
    cases h1 : lookupTy m.type_legalize t1 with
    | some x =>
      cases h2 : lookupTy m.type_legalize t2 with
      | some y =>
        simp only [CpuMode.legalize_type, h1, h2, Except.bind]
        rfl
      | none =>
        have e2 : lookupTy ((t2, g2) :: m.type_legalize) t1 = some x := by
          simp [lookupTy, if_neg (fun h : t2 = t1 => hne h.symm), h1]
        simp only [CpuMode.legalize_type, h1, h2, Except.bind, e2]
        rfl
    | none =>
      cases h2 : lookupTy m.type_legalize t2 with
      | some y =>
        have e1 : lookupTy ((t1, g1) :: m.type_legalize) t2 = some y := by
          simp [lookupTy, if_neg hne, h2]
        simp only [CpuMode.legalize_type, h1, h2, Except.bind, e1]
        rfl
      | none =>
        have e1 : lookupTy ((t1, g1) :: m.type_legalize) t2 = none := by
          simp [lookupTy, if_neg hne, h2]
        have e2 : lookupTy ((t2, g2) :: m.type_legalize) t1 = none := by
          simp [lookupTy, if_neg (fun h : t2 = t1 => hne h.symm), h1]
        simp only [CpuMode.legalize_type, h1, h2, Except.bind, e1, e2]
        refine ⟨rfl, rfl, ?_⟩
        intro ty
        by_cases a : t2 = ty
        · by_cases b : t1 = ty
          · exact absurd (b.trans a.symm) hne
          · simp [lookupTy, a, b]
        · by_cases b : t1 = ty
          · simp [lookupTy, a, b]
          · simp [lookupTy, a, b]
  · intro m t g d hd hl
    simp only [CpuMode.legalize_default, CpuMode.legalize_type, Except.bind, hd, hl]
  · intro m t g a hm hl
    simp only [CpuMode.legalize_monomorphic, CpuMode.legalize_type, Except.bind, hm, hl]

theorem claim_C7_witness :
    (CpuMode.mk "M" (some "g0") none []).legalize_monomorphic "g1" =
      Except.error CpuModeError.AlreadySet ∧
    exceptModeEquiv
      (Except.bind ((CpuMode.new "M").legalize_type ValueType.I32 "g1")
        (fun mm => mm.legalize_type ValueType.I64 "g2"))
      (Except.bind ((CpuMode.new "M").legalize_type ValueType.I64 "g2")
        (fun mm => mm.legalize_type ValueType.I32 "g1")) ∧
    Except.bind ((CpuMode.new "M").legalize_default "d0")
        (fun mm => mm.legalize_type ValueType.I8 "g3") =
      Except.bind ((CpuMode.new "M").legalize_type ValueType.I8 "g3")
        (fun mm => mm.legalize_default "d0") ∧
    Except.bind ((CpuMode.new "M").legalize_monomorphic "a0")
        (fun mm => mm.legalize_type ValueType.I16 "g4") =
      Except.bind ((CpuMode.new "M").legalize_type ValueType.I16 "g4")
        (fun mm => mm.legalize_monomorphic "a0") :=
  ⟨claim_C7.1 (CpuMode.new "M") (CpuMode.mk "M" (some "g0") none []) "g0" "g1" rfl,
   claim_C7.2.2.2.2.1 (CpuMode.new "M") ValueType.I32 ValueType.I64 "g1" "g2"
    (by decide),
   claim_C7.2.2.2.2.2.1 (CpuMode.new "M") ValueType.I8 "g3" "d0" rfl rfl,
   claim_C7.2.2.2.2.2.2 (CpuMode.new "M") ValueType.I16 "g4" "a0" rfl rfl⟩

/-- Claim C8: in the finalized x86 settings, the flag has_avx (bit 5) is
referenced by no predicate and forced on by no preset mask, and the baseline
preset mask is entirely zero. -/
theorem claim_C8 :
    X86.x86Settings.bitOf "has_avx" = some 5 ∧
    (X86.x86Settings.predicates.all
      (fun p => ! p.leaves.contains (PredLeaf.flagRef 5))) = true ∧
    (X86.x86Settings.preset_masks.all (fun pm => ! pm.2.testBit 5)) = true ∧
    X86.x86Settings.presetMaskOf "baseline" = some 0 := by
  decide

/-- Claim C9: the legalization table of the x86_32 mode (I32) is contained in
that of the x86_64 mode (I64): same always-applies rule expand_flags, same
default narrow, every type-specific entry of x86_32 appears identically in
x86_64, and x86_64 adds exactly one more entry, I64 mapped to x86_expand. -/
theorem claim_C9 :
    (∀ ty : ValueType, (lookupTy X86.x86_32_mode.type_legalize ty).isSome = true →
      lookupTy X86.x86_64_mode.type_legalize ty =
        lookupTy X86.x86_32_mode.type_legalize ty) ∧
    (∀ ty : ValueType, ty ≠ ValueType.I64 →
      lookupTy X86.x86_64_mode.type_legalize ty =
        lookupTy X86.x86_32_mode.type_legalize ty) ∧
    X86.x86_64_build = Except.ok X86.x86_64_mode ∧
    X86.x86_32_build = Except.ok X86.x86_32_mode ∧
    X86.x86_32_mode.name = "I32" ∧
    X86.x86_64_mode.name = "I64" ∧
    X86.x86_32_mode.monomorphic_legalize = some "expand_flags" ∧
    X86.x86_64_mode.monomorphic_legalize = some "expand_flags" ∧
    X86.x86_32_mode.default_legalize = some "narrow" ∧
    X86.x86_64_mode.default_legalize = some "narrow" ∧
    lookupTy X86.x86_32_mode.type_legalize .B1 = some "expand_flags" ∧
    lookupTy X86.x86_32_mode.type_legalize .I8 = some "widen" ∧
    lookupTy X86.x86_32_mode.type_legalize .I16 = some "widen" ∧
    lookupTy X86.x86_32_mode.type_legalize .I32 = some "x86_expand" ∧
    lookupTy X86.x86_32_mode.type_legalize .F32 = some "x86_expand" ∧
    lookupTy X86.x86_32_mode.type_legalize .F64 = some "x86_expand" ∧
    lookupTy X86.x86_32_mode.type_legalize .I64 = none ∧
    lookupTy X86.x86_64_mode.type_legalize .I64 = some "x86_expand" := by
  refine ⟨?_, ?_, ?_⟩
  · intro ty
    cases ty <;> decide
  · intro ty
    cases ty <;> decide
  · decide

theorem claim_C9_witness :
    lookupTy X86.x86_64_mode.type_legalize ValueType.B1 =
      lookupTy X86.x86_32_mode.type_legalize ValueType.B1 ∧
    lookupTy X86.x86_64_mode.type_legalize ValueType.F32 =
      lookupTy X86.x86_32_mode.type_legalize ValueType.F32 :=
  ⟨claim_C9.1 ValueType.B1 (by decide), claim_C9.2.1 ValueType.F32 (by decide)⟩

/-- Claim C10 (amended): the x86 target definition is deterministic — for any
fixed shared-definitions input, two runs of define produce identical results;
under the specified register-bank name-length rule, that identical result is
the LengthMismatch failure raised by the IntRegs bank declaration (8 names for
16 units), so no target descriptor is produced. -/
theorem claim_C10 :
    ∀ s : SharedDefinitions,
      X86.define s = X86.define s ∧
      X86.define s = Except.error (DefineError.regsErr RegError.LengthMismatch) :=
  fun _ => ⟨rfl, rfl⟩

theorem claim_C10_counterexample : (X86.define sharedExample).isOk = false := by
  decide

theorem claim_C10_witness :
    X86.define sharedExample = X86.define sharedExample ∧
    X86.define sharedExample =
      Except.error (DefineError.regsErr RegError.LengthMismatch) :=
  claim_C10 sharedExample
